import Mathlib

/-!
Verification of the rust-lpsolve wrapper (src/src/lib.rs) against its
specification.  The wrapper marshals data to the bundled lpsolve C library;
the wrapper code itself is embedded faithfully below, while the behaviour of
the C entry points (which live in the bundled lp_solve_5.5 sources, outside
src/) is modelled from the specification where a claim depends on it.

Coefficients (Rust f64) are never inspected arithmetically by any wrapper
operation relevant to the claims, so the payload type is kept as a type
parameter F; witnesses instantiate it with Int.
-/

namespace Lpsolve

/-- Rust enum SolveStatus from src/src/lib.rs lines 102-120. -/
inductive SolveStatus where
  | OutOfMemory
  | NotRun
  | Optimal
  | Suboptimal
  | Infeasible
  | Unbounded
  | Degenerate
  | NumericalFailure
  | UserAbort
  | Timeout
  | Presolved
  | ProcFail
  | ProcBreak
  | FeasibleFound
  | NoFeasibleFound
deriving DecidableEq, Repr

/-- The discriminant values declared in the Rust source for each SolveStatus
variant (OutOfMemory = -2, ..., Presolved = 8, ProcFail = 9, ProcBreak = 11,
FeasibleFound = 12, NoFeasibleFound = 13). -/
def SolveStatus.discr : SolveStatus → Int
  | .OutOfMemory => -2
  | .NotRun => -1
  | .Optimal => 0
  | .Suboptimal => 1
  | .Infeasible => 2
  | .Unbounded => 3
  | .Degenerate => 4
  | .NumericalFailure => 5
  | .UserAbort => 6
  | .Timeout => 7
  | .Presolved => 8
  | .ProcFail => 9
  | .ProcBreak => 11
  | .FeasibleFound => 12
  | .NoFeasibleFound => 13

/-- Rust enum ConstraintType from src/src/lib.rs lines 72-79
(Le = 1, Eq = 3, Ge = 2, Free = 0). -/
inductive ConstraintType where
  | Le
  | Eq
  | Ge
  | Free
deriving DecidableEq, Repr

/-- Declared discriminants of ConstraintType. -/
def ConstraintType.code : ConstraintType → Int
  | .Le => 1
  | .Eq => 3
  | .Ge => 2
  | .Free => 0

/-- Rust enum VarType from src/src/lib.rs lines 88-93 (Binary = 1, Float = 0). -/
inductive VarType where
  | Binary
  | Float
deriving DecidableEq, Repr

/-- Outcome of calling a Rust function: a normal return value, or a panic
raised by an `assert` or a panic-with-message.  A panic unwinds out of the
call, so no state is returned in that case. -/
inductive RustOutcome (α : Type) where
  | ok (a : α)
  | panicked
deriving DecidableEq, Repr

/-- Problem.solve (src/src/lib.rs lines 495-515) as a function of the raw
return code of the underlying lp::solve call: the Rust match maps the listed
codes to SolveStatus variants (note 9 maps to Presolved and 10 to ProcFail)
and any other code hits the catch-all arm, which panics. -/
def solveStatusOfCode (code : Int) : RustOutcome SolveStatus :=
  if code = -2 then .ok .OutOfMemory
  else if code = -1 then .ok .NotRun
  else if code = 0 then .ok .Optimal
  else if code = 1 then .ok .Suboptimal
  else if code = 2 then .ok .Infeasible
  else if code = 3 then .ok .Unbounded
  else if code = 4 then .ok .Degenerate
  else if code = 5 then .ok .NumericalFailure
  else if code = 6 then .ok .UserAbort
  else if code = 7 then .ok .Timeout
  else if code = 9 then .ok .Presolved
  else if code = 10 then .ok .ProcFail
  else if code = 11 then .ok .ProcBreak
  else if code = 12 then .ok .FeasibleFound
  else if code = 13 then .ok .NoFeasibleFound
  else .panicked

/-- The raw solve codes that the Rust match on lp::solve handles without
hitting the panicking catch-all arm. -/
def handledSolveCodes : List Int := [-2, -1, 0, 1, 2, 3, 4, 5, 6, 7, 9, 10, 11, 12, 13]

end Lpsolve

namespace Lpsolve

/-- Modelled from the spec: the in-memory Problem Model of the wrapped solver
(spec section 3), whose mutating code lives in the bundled lp_solve_5.5 C
sources outside src/.  Row 0 is the objective row (objRow, whose index 0 is the
constant belonging to reserved column 0 and whose index j is the objective
coefficient of column j); cols holds the structural columns 1..C, each listing
its entries for constraint rows 1..R; rhs, rowTypes hold the per-row RHS value
and constraint type; status and solution record the result of the most recent
solve (solution is the variable assignment when one is available, none
otherwise, e.g. after an infeasible solve). -/
structure LpModel (F : Type) where
  objRow : List F
  cols : List (List F)
  rhs : List F
  rowTypes : List ConstraintType
  status : SolveStatus
  solution : Option (List F)
deriving DecidableEq, Repr

/-- Well-formedness of the model: the objective row has one entry per column
plus the reserved column 0, each structural column has one entry per
constraint row, and there is one constraint type per row. -/
def LpModel.WF {F : Type} (p : LpModel F) : Prop :=
  p.objRow.length = p.cols.length + 1 ∧
  p.rowTypes.length = p.rhs.length ∧
  ∀ c ∈ p.cols, c.length = p.rhs.length

instance {F : Type} [DecidableEq F] (p : LpModel F) : Decidable p.WF := by
  unfold LpModel.WF
  infer_instance

/-- The C entry point lp::get_Ncolumns: the number of structural columns. -/
def lp_get_Ncolumns {F : Type} (p : LpModel F) : Int := p.cols.length

/-- The C entry point lp::get_Nrows: the number of constraint rows. -/
def lp_get_Nrows {F : Type} (p : LpModel F) : Int := p.rhs.length

/-- Modelled from the spec: the C entry point lp::add_column (spec sections
2 and 4.1, column insertion).  The dense input vector holds the objective-row
entry of the new column at index 0 and its constraint-row entries after it;
the column is appended after the existing columns.  The wrapper only calls it
with a vector of length Nrows+1, hence nonempty; on an empty vector the model
reports failure and leaves the model unchanged. -/
def lp_add_column {F : Type} (p : LpModel F) (values : List F) : Bool × LpModel F :=
  match values with
  | [] => (false, p)
  | v0 :: vrest =>
      (true, { p with objRow := p.objRow ++ [v0], cols := p.cols ++ [vrest] })

/-- Modelled from the spec: the C entry point lp::get_column (spec section
4.2, getColumn yielding a dense vector).  For a structural column index
1 <= column <= C it writes the Nrows+1 entries of that column (objective-row
entry first) over the front of the caller's buffer, leaving the rest of the
buffer untouched, and reports success; out of range it reports failure and
leaves the buffer untouched. -/
def lp_get_column {F : Type} [Inhabited F] (p : LpModel F) (column : Int)
    (buf : List F) : Bool × List F :=
  if 1 ≤ column ∧ column ≤ p.cols.length then
    let j := column.toNat
    (true, (p.objRow.getD j default :: p.cols.getD (j - 1) []) ++
      buf.drop (p.rhs.length + 1))
  else
    (false, buf)

/-- Modelled from the spec: the C entry point lp::del_column (spec section
4.1, deleteColumn).  Column 0 is reserved (its deletion is the
ReservedIndexError case) and an out-of-range index also fails; in both cases
the model is unchanged.  A valid deletion removes the column and shifts
higher indices down. -/
def lp_del_column {F : Type} (p : LpModel F) (column : Int) : Bool × LpModel F :=
  if 1 ≤ column ∧ column ≤ p.cols.length then
    let j := column.toNat
    (true, { p with objRow := p.objRow.eraseIdx j, cols := p.cols.eraseIdx (j - 1) })
  else
    (false, p)

/-- Modelled from the spec: the C entry point lp::del_constraint (spec
section 4.1, deleteRow).  Row 0 is the objective row and is reserved (its
deletion is the ReservedIndexError case) and an out-of-range index also
fails; in both cases the model is unchanged.  A valid deletion removes the
row everywhere and shifts higher indices up. -/
def lp_del_constraint {F : Type} (p : LpModel F) (row : Int) : Bool × LpModel F :=
  if 1 ≤ row ∧ row ≤ p.rhs.length then
    let i := row.toNat
    (true, { p with
      cols := p.cols.map (fun c => c.eraseIdx (i - 1)),
      rhs := p.rhs.eraseIdx (i - 1),
      rowTypes := p.rowTypes.eraseIdx (i - 1) })
  else
    (false, p)

/-- Modelled from the spec: the C entry point lp::add_constraint (spec
section 4.1, addRow).  Entry j+1 of the coefficient vector is the new row's
coefficient for column j+1 (entry 0 belongs to the reserved column); the row
is appended after the existing rows together with its type and RHS value. -/
def lp_add_constraint {F : Type} [Inhabited F] (p : LpModel F) (coeffs : List F)
    (kind : ConstraintType) (target : F) : Bool × LpModel F :=
  (true, { p with
    cols := p.cols.enum.map (fun jc => jc.2 ++ [coeffs.getD (jc.1 + 1) default]),
    rhs := p.rhs ++ [target],
    rowTypes := p.rowTypes ++ [kind] })

/-- Modelled from the spec: the C entry point lp::set_obj_fn (spec sections
3 and 4.1, setObjective).  The objective coefficient vector of length C+1 is
taken from the first C+1 entries of the supplied coefficients. -/
def lp_set_obj_fn {F : Type} (p : LpModel F) (coeffs : List F) : Bool × LpModel F :=
  (true, { p with objRow := coeffs.take (p.cols.length + 1) })

/-- Modelled from the spec: the C entry point lp::get_variables (spec
section 6, solution query valid only after a terminal status).  When the most
recent solve produced a variable assignment it is written over the front of
the caller's buffer and success is reported; otherwise failure is reported
and the buffer is untouched. -/
def lp_get_variables {F : Type} (p : LpModel F) (buf : List F) : Bool × List F :=
  match p.solution with
  | some sol => (true, sol ++ buf.drop sol.length)
  | none => (false, buf)

/-- Problem.num_cols (src/src/lib.rs lines 547-549). -/
def num_cols {F : Type} (p : LpModel F) : Int := lp_get_Ncolumns p

/-- Problem.num_rows (src/src/lib.rs lines 551-553). -/
def num_rows {F : Type} (p : LpModel F) : Int := lp_get_Nrows p

/-- Problem.add_column (src/src/lib.rs lines 237-240): asserts that the
vector length equals num_rows + 1 (a panic when it does not), then forwards
to lp::add_column. -/
def add_column {F : Type} (p : LpModel F) (values : List F) :
    RustOutcome (Bool × LpModel F) :=
  if values.length = (num_rows p).toNat + 1 then .ok (lp_add_column p values)
  else .panicked

/-- Problem.get_column (src/src/lib.rs lines 254-257): asserts that the
buffer length is at least num_rows + 1 (a panic when it is not), then
forwards to lp::get_column. -/
def get_column {F : Type} [Inhabited F] (p : LpModel F) (values : List F)
    (column : Int) : RustOutcome (Bool × List F) :=
  if values.length ≥ (num_rows p).toNat + 1 then .ok (lp_get_column p column values)
  else .panicked

/-- Problem.add_constraint (src/src/lib.rs lines 293-296): asserts that the
vector length is at least num_cols + 1 (a panic when it is not), then
forwards to lp::add_constraint. -/
def add_constraint {F : Type} [Inhabited F] (p : LpModel F) (coeffs : List F)
    (target : F) (kind : ConstraintType) : RustOutcome (Bool × LpModel F) :=
  if coeffs.length ≥ (num_cols p).toNat + 1 then
    .ok (lp_add_constraint p coeffs kind target)
  else .panicked

/-- Problem.set_objective_function (src/src/lib.rs lines 453-456): asserts
that the vector length is at least num_cols + 1 (a panic when it is not),
then forwards to lp::set_obj_fn. -/
def set_objective_function {F : Type} (p : LpModel F) (coeffs : List F) :
    RustOutcome (Bool × LpModel F) :=
  if coeffs.length ≥ (num_cols p).toNat + 1 then .ok (lp_set_obj_fn p coeffs)
  else .panicked

/-- Problem.del_column (src/src/lib.rs lines 317-319): forwards directly to
lp::del_column and reports its boolean. -/
def del_column {F : Type} (p : LpModel F) (col : Int) : Bool × LpModel F :=
  lp_del_column p col

/-- Problem.del_constraint (src/src/lib.rs lines 325-327): forwards directly
to lp::del_constraint and reports its boolean. -/
def del_constraint {F : Type} (p : LpModel F) (row : Int) : Bool × LpModel F :=
  lp_del_constraint p row

/-- Problem.get_solution_variables (src/src/lib.rs lines 521-529): returns
none only when the buffer is shorter than num_cols; otherwise it calls
lp::get_variables, discards its boolean result, and returns the buffer
truncated to num_cols. -/
def get_solution_variables {F : Type} (p : LpModel F) (vars : List F) :
    Option (List F) :=
  let cols := (num_cols p).toNat
  if vars.length < cols then none
  else some ((lp_get_variables p vars).2.take cols)

/-- Problem.is_negative (src/src/lib.rs lines 332-338) as a function of the
model and of the raw integer returned by the underlying lp::is_negative
call: the only bound check is col > num_cols + 1. -/
def is_negative {F : Type} (p : LpModel F) (col : Int) (raw : Int) : Option Bool :=
  if col > num_cols p + 1 then none else some (raw = 1)

/-- Problem.get_variable_type (src/src/lib.rs lines 346-357) as a function of
the model and of the raw integer returned by the underlying lp::is_binary
call: the only bound check is col > num_cols + 1. -/
def get_variable_type {F : Type} (p : LpModel F) (col : Int) (raw : Int) :
    Option VarType :=
  if col > num_cols p + 1 then none
  else some (if raw = 1 then VarType.Binary else VarType.Float)

/-- Problem.is_unbounded (src/src/lib.rs lines 413-419) as a function of the
model and of the raw integer returned by the underlying lp::is_unbounded
call: the only bound check is col > num_cols + 1. -/
def is_unbounded {F : Type} (p : LpModel F) (col : Int) (raw : Int) : Option Bool :=
  if col > num_cols p + 1 then none else some (raw = 1)

/-- Problem.is_integer (src/src/lib.rs lines 442-448) as a function of the
model and of the raw integer returned by the underlying lp::is_int call: the
only bound check is col > num_cols + 1. -/
def is_integer {F : Type} (p : LpModel F) (col : Int) (raw : Int) : Option Bool :=
  if col > num_cols p + 1 then none else some (raw = 1)

/-- Problem.get_constraint_type (src/src/lib.rs lines 393-405) as a function
of the model and of the raw integer returned by the underlying
lp::get_constr_type call: out of range rows give none, raw codes 1, 2, 3 give
Le, Ge, Eq, and every other raw code (including 0, the declared code of
Free) gives none. -/
def get_constraint_type {F : Type} (p : LpModel F) (row : Int) (raw : Int) :
    Option ConstraintType :=
  if row > num_rows p + 1 then none
  else if raw = 1 then some ConstraintType.Le
  else if raw = 2 then some ConstraintType.Ge
  else if raw = 3 then some ConstraintType.Eq
  else none

/-- Problem.new (src/src/lib.rs lines 167-171): the cptr macro turns a null
pointer from lp::make_lp (modelled as none) into None and a non-null pointer
into Some, so an allocation failure surfaces as an explicit None. -/
def Problem.new {F : Type} (ffi : Option (LpModel F)) : Option (LpModel F) :=
  match ffi with
  | none => none
  | some s => some s

/-- Clone for Problem (src/src/lib.rs lines 562-570): a null pointer from
lp::copy_lp (modelled as none, the allocation-failure case) makes the clone
implementation panic with an OOM message instead of returning. -/
def Problem.clone {F : Type} (ffi : Option (LpModel F)) : RustOutcome (LpModel F) :=
  match ffi with
  | none => .panicked
  | some s => .ok s

/-- C1 (counterexample). The claim says Problem.solve is never fatal whatever
integer the wrapped solve call returns; but at raw code 8 the match falls
into the catch-all arm and panics. -/
theorem solve_total_counterexample :
    solveStatusOfCode 8 = RustOutcome.panicked := by
  decide

/-- C1 (amended). For every raw return code in the handled list, Problem.solve
returns a SolveStatus variant as its normal result; for every raw code outside
that list (such as 8) the call panics instead of returning. -/
theorem solve_code_totality (code : Int) :
    (code ∈ handledSolveCodes → ∃ s : SolveStatus, solveStatusOfCode code = RustOutcome.ok s) ∧
    (code ∉ handledSolveCodes → solveStatusOfCode code = RustOutcome.panicked) := by
  constructor
  · intro h
    fin_cases h <;> exact ⟨_, rfl⟩
  · intro h
    simp only [handledSolveCodes, List.mem_cons, List.not_mem_nil, or_false, not_or] at h
    obtain ⟨h1, h2, h3, h4, h5, h6, h7, h8, h9, h10, h11, h12, h13, h14, h15⟩ := h
    simp [solveStatusOfCode, h1, h2, h3, h4, h5, h6, h7, h8, h9, h10, h11, h12, h13, h14, h15]

/-- C1 (witness). At the concrete handled code 5 the solve wrapper returns a
normal SolveStatus, and at the concrete unhandled code 8 it panics. -/
theorem solve_code_totality_spot :
    (∃ s : SolveStatus, solveStatusOfCode 5 = RustOutcome.ok s) ∧
    solveStatusOfCode 8 = RustOutcome.panicked :=
  ⟨(solve_code_totality 5).1 (by decide), (solve_code_totality 8).2 (by decide)⟩

/-- A concrete model with one structural column and no constraint rows, used
to evaluate the wrapper operations at specific inputs. -/
def oneColModel : LpModel Int :=
  { objRow := [0, 0], cols := [[]], rhs := [], rowTypes := [],
    status := .NotRun, solution := none }

/-- C2 (counterexample). The claim says every mutating call whose coefficient
vector length does not match count + 1 is rejected with the model unchanged;
but set_objective_function on a one-column model accepts a vector of length 3
(num_cols + 1 = 2), succeeds, and changes the model. -/
theorem set_objective_long_vector_counterexample :
    set_objective_function oneColModel [7, 8, 9] =
      RustOutcome.ok (true, { oneColModel with objRow := [7, 8] }) ∧
    ([7, 8, 9] : List Int).length ≠ (num_cols oneColModel).toNat + 1 ∧
    ({ oneColModel with objRow := [7, 8] } : LpModel Int) ≠ oneColModel := by
  decide

/-- C2 (amended). add_column panics (and, panicking before the foreign call,
leaves the model unchanged) exactly when the vector length differs from
num_rows + 1; add_constraint and set_objective_function panic exactly when
the vector length is below num_cols + 1, and accept any longer vector; no
DimensionError value exists, the failure is an assertion panic. -/
theorem mutation_length_checks {F : Type} [Inhabited F] (p : LpModel F)
    (v coeffs : List F) (target : F) (kind : ConstraintType) :
    (v.length ≠ (num_rows p).toNat + 1 → add_column p v = RustOutcome.panicked) ∧
    (v.length = (num_rows p).toNat + 1 → ∃ r, add_column p v = RustOutcome.ok r) ∧
    (coeffs.length < (num_cols p).toNat + 1 →
      add_constraint p coeffs target kind = RustOutcome.panicked) ∧
    ((num_cols p).toNat + 1 ≤ coeffs.length →
      ∃ r, add_constraint p coeffs target kind = RustOutcome.ok r) ∧
    (coeffs.length < (num_cols p).toNat + 1 →
      set_objective_function p coeffs = RustOutcome.panicked) ∧
    ((num_cols p).toNat + 1 ≤ coeffs.length →
      ∃ r, set_objective_function p coeffs = RustOutcome.ok r) := by
  refine ⟨fun h => ?_, fun h => ?_, fun h => ?_, fun h => ?_, fun h => ?_, fun h => ?_⟩
  · simp only [add_column]
    rw [if_neg h]
  · exact ⟨_, by simp only [add_column]; rw [if_pos h]⟩
  · simp only [add_constraint]
    rw [if_neg (by omega)]
  · exact ⟨_, by simp only [add_constraint]; rw [if_pos h]⟩
  · simp only [set_objective_function]
    rw [if_neg (by omega)]
  · exact ⟨_, by simp only [set_objective_function]; rw [if_pos h]⟩

/-- C2 (witness). On the concrete one-column model, add_column with an empty
vector panics, while set_objective_function with a vector one entry longer
than num_cols + 1 returns normally. -/
theorem mutation_length_checks_spot :
    add_column oneColModel ([] : List Int) = RustOutcome.panicked ∧
    (∃ r, set_objective_function oneColModel [7, 8, 9] = RustOutcome.ok r) :=
  ⟨(mutation_length_checks oneColModel [] [7, 8, 9] 0 ConstraintType.Le).1 (by decide),
   (mutation_length_checks oneColModel [] [7, 8, 9] 0
      ConstraintType.Le).2.2.2.2.2 (by decide)⟩

/-- C3. Deleting column 0 or constraint row 0 always fails (the reserved
index case of the modelled deleteColumn/deleteRow) and returns the model
exactly as it was: every count and every stored coefficient is unchanged. -/
theorem del_index_zero_fails_unchanged {F : Type} (p : LpModel F) :
    del_column p 0 = (false, p) ∧ del_constraint p 0 = (false, p) := by
  constructor
  · simp only [del_column, lp_del_column]
    rw [if_neg (by omega)]
  · simp only [del_constraint, lp_del_constraint]
    rw [if_neg (by omega)]

/-- C4 (counterexample). The claim says an allocation failure during cloning
surfaces as an explicit failed-construction result and never terminates the
process; but when lp::copy_lp reports failure (a null pointer, modelled as
none) the Clone implementation panics instead of returning any value. -/
theorem clone_allocation_failure_counterexample :
    Problem.clone (none : Option (LpModel Int)) = RustOutcome.panicked :=
  rfl

/-- C4 (amended). An allocation failure in Problem.new surfaces as an
explicit None and success hands back exactly the constructed model (never a
partial value); an allocation failure in Clone for Problem panics instead of
returning a result, while a successful clone hands back the copied model. -/
theorem construction_failure_surface {F : Type} (s : LpModel F) :
    Problem.new (none : Option (LpModel F)) = none ∧
    Problem.new (some s) = some s ∧
    Problem.clone (none : Option (LpModel F)) = RustOutcome.panicked ∧
    Problem.clone (some s) = RustOutcome.ok s :=
  ⟨rfl, rfl, rfl, rfl⟩

/-- C5. A valid column insertion (vector length num_rows + 1, as the wrapper
asserts) returns normally with success, num_cols grows by exactly 1, and
reading any previously present column through get_column afterwards gives
exactly the result it gave before the insertion, for every buffer. -/
theorem add_column_frame {F : Type} [Inhabited F] (p : LpModel F) (v : List F)
    (hWF : p.WF) (hlen : v.length = (num_rows p).toNat + 1) :
    ∃ s, add_column p v = RustOutcome.ok (true, s) ∧
      num_cols s = num_cols p + 1 ∧
      ∀ (j : Int) (buf : List F), 1 ≤ j → j ≤ num_cols p →
        get_column s buf j = get_column p buf j := by
  cases v with
  | nil => simp at hlen
  | cons v0 vrest =>
    refine ⟨{ p with objRow := p.objRow ++ [v0], cols := p.cols ++ [vrest] }, ?_, ?_, ?_⟩
    · simp only [add_column]
      rw [if_pos hlen]
      rfl
    · simp only [num_cols, lp_get_Ncolumns, List.length_append, List.length_singleton]
      push_cast
      ring
    · intro j buf hj1 hj2
      have hj2a : j ≤ (p.cols.length : Int) := hj2
      have hlen2 : (p.cols ++ [vrest]).length = p.cols.length + 1 := by simp
      simp only [get_column, num_rows, lp_get_Nrows]
      split_ifs with hb
      · simp only [lp_get_column]
        rw [if_pos ⟨hj1, by rw [hlen2]; omega⟩, if_pos ⟨hj1, hj2a⟩]
        have h1 : (p.objRow ++ [v0]).getD j.toNat default =
            p.objRow.getD j.toNat default :=
          List.getD_append _ _ _ _ (by rw [hWF.1]; omega)
        have h2 : (p.cols ++ [vrest]).getD (j.toNat - 1) [] =
            p.cols.getD (j.toNat - 1) [] :=
          List.getD_append _ _ _ _ (by omega)
        rw [h1, h2]
      · rfl

/-- A concrete model with one structural column and one constraint row, used
to evaluate the column-insertion frame property at a specific input. -/
def frameModel : LpModel Int :=
  { objRow := [0, 5], cols := [[10]], rhs := [99], rowTypes := [.Le],
    status := .NotRun, solution := none }

/-- C5 (witness). Inserting the concrete column [7, 8] into the concrete
one-column one-row model succeeds, raises num_cols from 1 to 2, and leaves
the result of get_column on column 1 unchanged. -/
theorem add_column_frame_spot :
    ∃ s, add_column frameModel [7, 8] = RustOutcome.ok (true, s) ∧
      num_cols s = num_cols frameModel + 1 ∧
      ∀ (j : Int) (buf : List Int), 1 ≤ j → j ≤ num_cols frameModel →
        get_column s buf j = get_column frameModel buf j :=
  add_column_frame frameModel [7, 8] (by decide) (by decide)

/-- A concrete model whose most recent solve was infeasible: status records
Infeasible and no variable assignment is available. -/
def infeasibleModel : LpModel Int :=
  { objRow := [0, 1], cols := [[1]], rhs := [2], rowTypes := [.Le],
    status := .Infeasible, solution := none }

/-- C6 (counterexample). The claim says that after a solve returning
Infeasible no solution variables are available from the query; but on a
concrete infeasible model (status Infeasible, no assignment stored) the
wrapper still returns Some, handing back the caller's untouched buffer
truncated to num_cols, because it discards the failure reported by the
underlying lp::get_variables. -/
theorem solution_after_infeasible_counterexample :
    infeasibleModel.status = SolveStatus.Infeasible ∧
    infeasibleModel.solution = none ∧
    get_solution_variables infeasibleModel [42] = some [42] := by
  decide

/-- C6 (amended). get_solution_variables returns None exactly when the
supplied buffer is shorter than num_cols; it never consults the solve
status, so when no assignment is available (e.g. after an Infeasible solve)
it still returns Some with the caller's buffer truncated to num_cols. -/
theorem get_solution_variables_ignores_status {F : Type} (p : LpModel F)
    (vars : List F) :
    (vars.length < (num_cols p).toNat → get_solution_variables p vars = none) ∧
    ((num_cols p).toNat ≤ vars.length → p.solution = none →
      get_solution_variables p vars = some (vars.take (num_cols p).toNat)) := by
  constructor
  · intro h
    simp only [get_solution_variables]
    rw [if_pos h]
  · intro h hsol
    simp only [get_solution_variables, lp_get_variables, hsol]
    rw [if_neg (by omega)]

/-- C6 (witness). On the concrete infeasible model the query returns None for
a too-short buffer and Some for an adequate buffer even though no solution
exists. -/
theorem get_solution_variables_ignores_status_spot :
    get_solution_variables infeasibleModel ([] : List Int) = none ∧
    get_solution_variables infeasibleModel [42] =
      some (([42] : List Int).take (num_cols infeasibleModel).toNat) :=
  ⟨(get_solution_variables_ignores_status infeasibleModel []).1 (by decide),
   (get_solution_variables_ignores_status infeasibleModel [42]).2
     (by decide) (by decide)⟩

/-- One mutating call of a model-building sequence, issued through the
wrapper operations embedded above. -/
inductive BuildOp (F : Type) where
  | addColumn (values : List F)
  | addConstraint (coeffs : List F) (target : F) (kind : ConstraintType)
  | setObjective (coeffs : List F)
  | delColumn (col : Int)
  | delConstraint (row : Int)
deriving DecidableEq, Repr

/-- Apply one wrapper call to the model, propagating a panic. -/
def applyBuildOp {F : Type} [Inhabited F] (p : LpModel F) :
    BuildOp F → RustOutcome (LpModel F)
  | .addColumn v =>
      match add_column p v with
      | .ok r => .ok r.2
      | .panicked => .panicked
  | .addConstraint c t k =>
      match add_constraint p c t k with
      | .ok r => .ok r.2
      | .panicked => .panicked
  | .setObjective c =>
      match set_objective_function p c with
      | .ok r => .ok r.2
      | .panicked => .panicked
  | .delColumn col => .ok (del_column p col).2
  | .delConstraint row => .ok (del_constraint p row).2

/-- Build a model by a sequence of wrapper calls; none when some call
panics. -/
def buildModel {F : Type} [Inhabited F] (init : LpModel F) :
    List (BuildOp F) → Option (LpModel F)
  | [] => some init
  | op :: ops =>
      match applyBuildOp init op with
      | .ok p => buildModel p ops
      | .panicked => none

/-- C7. Building a model twice by the identical call sequence and solving
each copy yields the identical SolveStatus (through the solve wrapper's code
mapping) and the identical objective value.  Per spec section 5 the wrapped
solver keeps no state outside the Problem instance (single-threaded, no
process-global state, instance-scoped parameters), so the raw solve code and
the objective value it reports are a function rawSolve of the model alone,
over which the statement quantifies. -/
theorem solve_rerun_deterministic {F : Type} [Inhabited F]
    (rawSolve : LpModel F → Int × F)
    (init : LpModel F) (ops : List (BuildOp F)) (m1 m2 : LpModel F)
    (h1 : buildModel init ops = some m1) (h2 : buildModel init ops = some m2) :
    solveStatusOfCode (rawSolve m1).1 = solveStatusOfCode (rawSolve m2).1 ∧
    (rawSolve m1).2 = (rawSolve m2).2 := by
  rw [h1] at h2
  cases Option.some.inj h2
  exact ⟨rfl, rfl⟩

/-- The model obtained from the concrete one-column model by one further
column insertion, used to evaluate the determinism statement. -/
def builtModel : LpModel Int :=
  { objRow := [0, 0, 5], cols := [[], []], rhs := [], rowTypes := [],
    status := .NotRun, solution := none }

/-- C7 (witness). A concrete build sequence evaluated twice yields the same
model, so any instance-determined solver output agrees between the runs. -/
theorem solve_rerun_deterministic_spot :
    solveStatusOfCode 0 = solveStatusOfCode 0 ∧ (10 : Int) = (10 : Int) :=
  solve_rerun_deterministic (fun _ => ((0 : Int), (10 : Int))) oneColModel
    [BuildOp.addColumn [5]] builtModel builtModel (by decide) (by decide)

/-- C9. For every model, row index, and raw value of the underlying call,
get_constraint_type never returns some Free: its result is always none or
one of Le, Ge, Eq, the underlying code 0 (the declared code of Free) being
mapped to none by the catch-all arm. -/
theorem get_constraint_type_never_free {F : Type} (p : LpModel F) (row raw : Int) :
    get_constraint_type p row raw ≠ some ConstraintType.Free ∧
    (get_constraint_type p row raw = none ∨
     get_constraint_type p row raw = some ConstraintType.Le ∨
     get_constraint_type p row raw = some ConstraintType.Ge ∨
     get_constraint_type p row raw = some ConstraintType.Eq) := by
  unfold get_constraint_type
  split_ifs <;> simp

/-- C10. For every model, column index, and raw value of the underlying
call, is_negative, get_variable_type, is_unbounded and is_integer return
none exactly when col > num_cols + 1; in particular col = num_cols + 1,
col = 0, and every negative col return some rather than none, since
num_cols is never negative and the wrapper performs no lower bound check. -/
theorem column_query_bound_checks {F : Type} (p : LpModel F) (col raw : Int) :
    (is_negative p col raw = none ↔ col > num_cols p + 1) ∧
    (get_variable_type p col raw = none ↔ col > num_cols p + 1) ∧
    (is_unbounded p col raw = none ↔ col > num_cols p + 1) ∧
    (is_integer p col raw = none ↔ col > num_cols p + 1) ∧
    ((col = num_cols p + 1 ∨ col ≤ 0) →
      is_negative p col raw ≠ none ∧ get_variable_type p col raw ≠ none ∧
      is_unbounded p col raw ≠ none ∧ is_integer p col raw ≠ none) := by
  by_cases h : col > num_cols p + 1
  · refine ⟨by simp [is_negative, h], by simp [get_variable_type, h],
      by simp [is_unbounded, h], by simp [is_integer, h], ?_⟩
    intro hc
    exfalso
    simp only [num_cols, lp_get_Ncolumns] at h hc
    rcases hc with hc | hc <;> omega
  · exact ⟨by simp [is_negative, h], by simp [get_variable_type, h],
      by simp [is_unbounded, h], by simp [is_integer, h],
      fun _ => ⟨by simp [is_negative, h], by simp [get_variable_type, h],
        by simp [is_unbounded, h], by simp [is_integer, h]⟩⟩

/-- C10 (witness). On the concrete one-column model, the queries at
col = num_cols + 1 = 2 and at the negative col -3 both return some. -/
theorem column_query_bound_checks_spot :
    (is_negative oneColModel 2 1 ≠ none ∧ get_variable_type oneColModel 2 1 ≠ none ∧
     is_unbounded oneColModel 2 1 ≠ none ∧ is_integer oneColModel 2 1 ≠ none) ∧
    (is_negative oneColModel (-3) 0 ≠ none ∧
     get_variable_type oneColModel (-3) 0 ≠ none ∧
     is_unbounded oneColModel (-3) 0 ≠ none ∧
     is_integer oneColModel (-3) 0 ≠ none) :=
  ⟨(column_query_bound_checks oneColModel 2 1).2.2.2.2 (by decide),
   (column_query_bound_checks oneColModel (-3) 0).2.2.2.2 (by decide)⟩

/-- C8. For every raw code n in {-2,-1,0,1,2,3,4,5,6,7,11,12,13} the solve
wrapper returns the variant whose declared discriminant equals n; raw code 9
yields Presolved (declared discriminant 8), raw code 10 yields ProcFail
(declared discriminant 9), and raw code 8 hits the panicking catch-all arm. -/
theorem solve_code_discriminant_shift :
    (solveStatusOfCode (-2) = .ok .OutOfMemory ∧ SolveStatus.discr .OutOfMemory = -2) ∧
    (solveStatusOfCode (-1) = .ok .NotRun ∧ SolveStatus.discr .NotRun = -1) ∧
    (solveStatusOfCode 0 = .ok .Optimal ∧ SolveStatus.discr .Optimal = 0) ∧
    (solveStatusOfCode 1 = .ok .Suboptimal ∧ SolveStatus.discr .Suboptimal = 1) ∧
    (solveStatusOfCode 2 = .ok .Infeasible ∧ SolveStatus.discr .Infeasible = 2) ∧
    (solveStatusOfCode 3 = .ok .Unbounded ∧ SolveStatus.discr .Unbounded = 3) ∧
    (solveStatusOfCode 4 = .ok .Degenerate ∧ SolveStatus.discr .Degenerate = 4) ∧
    (solveStatusOfCode 5 = .ok .NumericalFailure ∧ SolveStatus.discr .NumericalFailure = 5) ∧
    (solveStatusOfCode 6 = .ok .UserAbort ∧ SolveStatus.discr .UserAbort = 6) ∧
    (solveStatusOfCode 7 = .ok .Timeout ∧ SolveStatus.discr .Timeout = 7) ∧
    (solveStatusOfCode 11 = .ok .ProcBreak ∧ SolveStatus.discr .ProcBreak = 11) ∧
    (solveStatusOfCode 12 = .ok .FeasibleFound ∧ SolveStatus.discr .FeasibleFound = 12) ∧
    (solveStatusOfCode 13 = .ok .NoFeasibleFound ∧ SolveStatus.discr .NoFeasibleFound = 13) ∧
    (solveStatusOfCode 9 = .ok .Presolved ∧ SolveStatus.discr .Presolved = 8) ∧
    (solveStatusOfCode 10 = .ok .ProcFail ∧ SolveStatus.discr .ProcFail = 9) ∧
    solveStatusOfCode 8 = .panicked := by
  decide

end Lpsolve
